import Mathlib

/-!
Verification of the Git repository and license management system
(src/git_manager.py) against its natural-language specification.

The development shallowly embeds the two in-scope services:
the Repository Operation Executor (class GitManager) and the License
Generator (class LicenseManager), plus the Application Facade
composition (RepoManagerApp.generate_and_add_license).

Modelling conventions:
 - Python exceptions become the inductive PyError.  The typed taxonomy
   of the spec maps onto the RepoManagerError hierarchy of the code
   (constructors repoManagerError .. configError).  Untranslated
   OS-level or standard-library errors that escape the hierarchy are
   modelled by the osError and valueError constructors.
 - A child-process invocation is an environment-supplied ProcOutcome:
   either the process ran to completion with an exit code and captured
   stdout/stderr text, or the process could not be launched at all
   (FileNotFoundError / OSError from subprocess.run, e.g. the git
   executable absent from PATH).
 - Filesystem facts needed by add_files are supplied by a
   resolve : String -> PathResolution environment: for a requested
   path it gives the absolute form str((repo_path / path).absolute()),
   whether that absolute path exists on disk, and the result of
   Path.relative_to(repo_path): some r on success, none when pathlib
   raises ValueError because the path is not under the repository
   root.  The exact wording of the pathlib ValueError message is
   abstracted by a fixed message string.
 - Functions that spawn the tool return, alongside their Except
   result, the list of argument vectors actually handed to
   subprocess.run, so that the theorems can speak about which
   invocations were attempted.
-/

set_option maxRecDepth 16000

/-- Embedding of the Python error values that can escape the in-scope
functions.  The first six constructors are the RepoManagerError
exception hierarchy of the code (the typed taxonomy of the spec);
osError and valueError model untranslated standard-library errors. -/
inductive PyError where
  | repoManagerError : String → PyError
  | gitOperationError : String → PyError
  | licenseError : String → PyError
  | invalidLicenseError : String → PyError
  | licenseGenerationError : String → PyError
  | configError : String → PyError
  | osError : String → PyError
  | valueError : String → PyError
deriving DecidableEq

/-- True exactly when the error belongs to the typed failure taxonomy
(the RepoManagerError exception hierarchy); false for untranslated
OS-level or standard-library errors. -/
def isTypedFailure : PyError → Bool
  | .osError _ => false
  | .valueError _ => false
  | _ => true

/-- Outcome of one attempt to run a child process: either the process
was launched and completed with an exit code and captured stdout and
stderr text, or launching failed with an OS-level error (for example
FileNotFoundError because the executable is not on PATH). -/
inductive ProcOutcome where
  | ran : Nat → String → String → ProcOutcome
  | launchError : String → ProcOutcome
deriving DecidableEq

/-- Embedding of subprocess.CompletedProcess as captured by the code:
exit status plus stdout and stderr decoded as text. -/
structure CompletedProcess where
  returncode : Nat
  stdout : String
  stderr : String
deriving DecidableEq

/-- Embedding of GitManager._validate_git_installation.  The code runs
subprocess.run(["git", "--version"], check=True) inside a try block
that catches only subprocess.CalledProcessError, translating it to
GitOperationError("Git is not installed or not in PATH").  A launch
failure (the executable missing from PATH) raises FileNotFoundError,
which is not a CalledProcessError and therefore propagates
untranslated. -/
def validate_git_installation (outcome : ProcOutcome) : Except PyError Unit :=
  match outcome with
  | .ran code _ _ =>
    if code != 0 then
      .error (.gitOperationError "Git is not installed or not in PATH")
    else
      .ok ()
  | .launchError msg => .error (.osError msg)

/-- Embedding of GitManager._run_git_command.  The code runs
subprocess.run(["git"] ++ args, cwd=repo, check=check, capture text),
and translates subprocess.CalledProcessError (raised exactly when
check is true and the exit status is nonzero) into GitOperationError
carrying the joined argument vector and the captured stderr.  A launch
failure is not caught and propagates untranslated. -/
def run_git_command (args : List String) (check : Bool) (outcome : ProcOutcome) :
    Except PyError CompletedProcess :=
  match outcome with
  | .ran code out err =>
    if check && code != 0 then
      .error (.gitOperationError
        ("Git command failed: " ++ String.intercalate " " args ++ "\n" ++ err))
    else
      .ok { returncode := code, stdout := out, stderr := err }
  | .launchError msg => .error (.osError msg)

/-- Filesystem view of one requested path, as used by
GitManager.add_files: absStr is str((repo_path / path).absolute()),
onDisk is abs_path.exists(), and rel is the result of
abs_path.relative_to(repo_path) - some r on success, none when pathlib
raises ValueError because the absolute path is not under the
repository root. -/
structure PathResolution where
  absStr : String
  onDisk : Bool
  rel : Option String
deriving DecidableEq

/-- Embedding of the path-collection loop of GitManager.add_files: for
each requested path in order, first check existence of the absolute
path (raising GitOperationError "File not found: ..." on the first
missing one), then compute the path relative to the repository root
(pathlib raises ValueError when the path is outside the root; the
exact pathlib message is abstracted). -/
def collectPaths (resolve : String → PathResolution) : List String → Except PyError (List String)
  | [] => .ok []
  | p :: rest =>
    let r := resolve p
    if r.onDisk = false then
      .error (.gitOperationError ("File not found: " ++ r.absStr))
    else
      match r.rel with
      | none => .error (.valueError ("path " ++ r.absStr ++ " is not relative to the repository root"))
      | some rp => (collectPaths resolve rest).map (fun l => rp :: l)

/-- Embedding of GitManager.add_files.  Returns the list of argument
vectors handed to _run_git_command (so the theorems can speak about
whether the external tool was invoked) together with the Except
result.  The code raises GitOperationError("No files specified to
add") on an empty list, then runs the collection loop, and only then
issues the single "add" invocation with all collected relative
paths. -/
def add_files (resolve : String → PathResolution) (file_paths : List String)
    (outcome : ProcOutcome) : List (List String) × Except PyError Unit :=
  if file_paths.isEmpty then
    ([], .error (.gitOperationError "No files specified to add"))
  else
    match collectPaths resolve file_paths with
    | .error e => ([], .error e)
    | .ok abs_paths =>
      ([("add" :: abs_paths)],
        match run_git_command ("add" :: abs_paths) true outcome with
        | .error e => .error e
        | .ok _ => .ok ())

/-- Substring containment on strings, stated via explicit flanking
strings. -/
def strContains (s sub : String) : Prop := ∃ pre post : String, s = pre ++ (sub ++ post)

theorem strAppend_empty (s : String) : s ++ "" = s := by
  apply String.ext
  show s.data ++ [] = s.data
  exact List.append_nil _

theorem strContains_pre (s t : String) : strContains (s ++ t) s := ⟨"", t, rfl⟩

theorem strContains_suf (s t : String) : strContains (s ++ t) t :=
  ⟨s, "", by rw [strAppend_empty]⟩

theorem strContains_append_left (s t sub : String) (h : strContains t sub) :
    strContains (s ++ t) sub := by
  obtain ⟨p, q, hpq⟩ := h
  exact ⟨s ++ p, q, by rw [hpq, String.append_assoc]⟩

theorem strContains_append_right (s t sub : String) (h : strContains s sub) :
    strContains (s ++ t) sub := by
  obtain ⟨p, q, hpq⟩ := h
  refine ⟨p, q ++ t, ?_⟩
  rw [hpq, String.append_assoc, String.append_assoc]

/-- Concrete filesystem environment used for counterexamples: the path
"/etc/passwd" exists on disk but lies outside the repository root
(Path("/repo") / "/etc/passwd" is just Path("/etc/passwd"), which
exists, and relative_to raises ValueError); "missing.txt" resolves
inside the root but does not exist on disk. -/
def resolveCE : String → PathResolution := fun p =>
  if p = "/etc/passwd" then
    { absStr := "/etc/passwd", onDisk := true, rel := none }
  else if p = "missing.txt" then
    { absStr := "/repo/missing.txt", onDisk := false, rel := some "missing.txt" }
  else
    { absStr := "/repo/" ++ p, onDisk := true, rel := some p }

/-- C1: the code contradicts the claim (and its own error message) in
the environment where the git executable is absent from PATH:
subprocess.run raises FileNotFoundError, which is not a
subprocess.CalledProcessError, so the except clause of
_validate_git_installation does not fire and the caller of
GitManager.__init__ sees the untranslated OS-level error instead of
the typed GitOperationError. -/
theorem validate_git_installation_launch_failure_untyped :
    validate_git_installation
        (.launchError "FileNotFoundError: No such file or directory: git") =
      .error (.osError "FileNotFoundError: No such file or directory: git") ∧
    isTypedFailure (.osError "FileNotFoundError: No such file or directory: git") = false :=
  ⟨rfl, rfl⟩

/-- C3: add_files applied to the empty list always fails with the
InvalidArgument failure (GitOperationError "No files specified to
add") and never invokes the external tool: the returned invocation
trace is empty, whatever the filesystem and process environment. -/
theorem add_files_empty_invalid_argument
    (resolve : String → PathResolution) (outcome : ProcOutcome) :
    add_files resolve [] outcome =
      ([], .error (.gitOperationError "No files specified to add")) := rfl

/-- C4: whenever the child process behind a run_git_command invocation
with check enabled (as at every call site in the code) exits with a
nonzero status, the call raises the typed OperationFailed failure
(GitOperationError) whose message is exactly the joined argument
vector and the captured stderr appended to the fixed prefix; in
particular the message contains both, and the error is a typed
failure, never a raw process-exit signal. -/
theorem run_git_command_nonzero_exit_typed
    (args : List String) (exitCode : Nat) (out err : String) (h : exitCode ≠ 0) :
    run_git_command args true (.ran exitCode out err) =
      .error (.gitOperationError
        ("Git command failed: " ++ String.intercalate " " args ++ "\n" ++ err)) ∧
    strContains ("Git command failed: " ++ String.intercalate " " args ++ "\n" ++ err)
      (String.intercalate " " args) ∧
    strContains ("Git command failed: " ++ String.intercalate " " args ++ "\n" ++ err) err ∧
    isTypedFailure (.gitOperationError
      ("Git command failed: " ++ String.intercalate " " args ++ "\n" ++ err)) = true := by
  refine ⟨?_, ?_, ?_, rfl⟩
  · simp [run_git_command, h]
  · exact strContains_append_right _ _ _
      (strContains_append_right _ _ _ (strContains_suf _ _))
  · exact strContains_suf _ _

/-- Witness for C4 at a concrete invocation: the add invocation with
exit status 1 and captured stderr. -/
theorem run_git_command_nonzero_exit_typed_witness :
    run_git_command ["add", "LICENSE"] true (.ran 1 "" "fatal: pathspec did not match") =
      .error (.gitOperationError
        ("Git command failed: " ++ String.intercalate " " ["add", "LICENSE"] ++ "\n" ++
          "fatal: pathspec did not match")) ∧
    strContains ("Git command failed: " ++ String.intercalate " " ["add", "LICENSE"] ++ "\n" ++
        "fatal: pathspec did not match")
      (String.intercalate " " ["add", "LICENSE"]) ∧
    strContains ("Git command failed: " ++ String.intercalate " " ["add", "LICENSE"] ++ "\n" ++
        "fatal: pathspec did not match") "fatal: pathspec did not match" ∧
    isTypedFailure (.gitOperationError
      ("Git command failed: " ++ String.intercalate " " ["add", "LICENSE"] ++ "\n" ++
        "fatal: pathspec did not match")) = true :=
  run_git_command_nonzero_exit_typed ["add", "LICENSE"] 1 "" "fatal: pathspec did not match"
    (by decide)

/-- C10: there is an input on which add_files escapes the typed error
taxonomy: a non-empty list whose path exists on disk but resolves
outside the repository root.  The existence check passes, then
Path.relative_to raises ValueError, which no except clause of the
code translates; the failure happens before any external-tool
invocation (empty invocation trace). -/
theorem add_files_outside_repo_valueerror :
    (resolveCE "/etc/passwd").onDisk = true ∧
    (resolveCE "/etc/passwd").rel = none ∧
    add_files resolveCE ["/etc/passwd"] (.ran 0 "" "") =
      ([], .error (.valueError "path /etc/passwd is not relative to the repository root")) ∧
    isTypedFailure (.valueError "path /etc/passwd is not relative to the repository root") = false :=
  ⟨rfl, rfl, rfl, rfl⟩

/-- C2 counterexample: for the batch ["/etc/passwd", "missing.txt"] -
non-empty, and its second resolved path does not exist on disk - the
call does not fail with the FileNotFound failure (it aborts earlier,
on the first path, with the untranslated ValueError of the
relative-path computation), refuting the claim as stated.  The abort
still happens before any tool invocation. -/
theorem add_files_missing_after_outside_path_not_filenotfound :
    (["/etc/passwd", "missing.txt"] : List String) ≠ [] ∧
    (resolveCE "missing.txt").onDisk = false ∧
    (add_files resolveCE ["/etc/passwd", "missing.txt"] (.ran 0 "" "")).1 = [] ∧
    (∀ s : String,
      (add_files resolveCE ["/etc/passwd", "missing.txt"] (.ran 0 "" "")).2 ≠
        .error (.gitOperationError s)) := by
  refine ⟨by decide, rfl, rfl, ?_⟩
  intro s h
  have hv : (add_files resolveCE ["/etc/passwd", "missing.txt"] (.ran 0 "" "")).2 =
      .error (.valueError "path /etc/passwd is not relative to the repository root") := rfl
  rw [hv] at h
  simp at h

/-- C2 amended: for every non-empty path list of the shape
pre ++ bad :: rest in which every path before bad exists on disk and
resolves inside the repository root, and bad is missing from disk,
add_files fails with the FileNotFound failure naming the absolute form
of bad, and the external tool is never invoked (empty invocation
trace), so no path of the batch - valid or invalid, before or after
bad - is staged. -/
theorem add_files_first_missing_filenotfound
    (resolve : String → PathResolution) (pre rest : List String) (bad : String)
    (outcome : ProcOutcome)
    (hpre : ∀ p ∈ pre, (resolve p).onDisk = true ∧ (resolve p).rel.isSome = true)
    (hbad : (resolve bad).onDisk = false) :
    add_files resolve (pre ++ bad :: rest) outcome =
      ([], .error (.gitOperationError ("File not found: " ++ (resolve bad).absStr))) := by
  have hcollect : collectPaths resolve (pre ++ bad :: rest) =
      .error (.gitOperationError ("File not found: " ++ (resolve bad).absStr)) := by
    induction pre with
    | nil => simp [collectPaths, hbad]
    | cons a t ih =>
      have ha := hpre a (List.mem_cons_self a t)
      obtain ⟨rp, hrp⟩ := Option.isSome_iff_exists.mp ha.2
      have ht : ∀ p ∈ t, (resolve p).onDisk = true ∧ (resolve p).rel.isSome = true :=
        fun p hp => hpre p (List.mem_cons_of_mem a hp)
      rw [List.cons_append]
      simp only [collectPaths, ha.1, hrp, ih ht]
      rfl
  have hne : (pre ++ bad :: rest).isEmpty = false := by
    cases pre <;> simp [List.isEmpty]
  simp only [add_files, hne, hcollect]
  rfl

/-- Witness for the amended C2 at a concrete input: the singleton
batch ["missing.txt"] under the concrete filesystem environment. -/
theorem add_files_first_missing_filenotfound_witness :
    add_files resolveCE ["missing.txt"] (.ran 0 "" "") =
      ([], .error (.gitOperationError "File not found: /repo/missing.txt")) :=
  add_files_first_missing_filenotfound resolveCE [] [] "missing.txt" (.ran 0 "" "")
    (by simp) rfl

/-- Character class stripped by the Python str.strip() default:
space, tab, newline, carriage return, vertical tab, form feed. -/
def pyIsSpace (c : Char) : Bool :=
  c = ' ' || c = '\t' || c = '\n' || c = '\r' || c = '\x0b' || c = '\x0c'

/-- Drops the leading run of whitespace characters. -/
def dropLeadingWs : List Char → List Char
  | [] => []
  | c :: r => if pyIsSpace c then dropLeadingWs r else c :: r

/-- Embedding of the Python str.strip() with no arguments: removes
leading and trailing whitespace. -/
def pyStrip (s : String) : String :=
  String.mk ((dropLeadingWs ((dropLeadingWs s.data).reverse)).reverse)

/-- Embedding of the Python str.split("\n"): splits on every newline,
keeping empty segments. -/
def splitNewlineAux (cur : List Char) : List Char → List String
  | [] => [String.mk cur.reverse]
  | '\n' :: rest => String.mk cur.reverse :: splitNewlineAux [] rest
  | c :: rest => splitNewlineAux (c :: cur) rest

/-- Splits a string at newline characters, as result.stdout.split("\n")
does in list_branches. -/
def pySplitNewline (s : String) : List String := splitNewlineAux [] s.data

/-- Embedding of the Python str.startswith(p). -/
def pyStartsWith (s p : String) : Bool := p.data.isPrefixOf s.data

/-- Embedding of the Python slice s[n:]. -/
def pyDrop (s : String) (n : Nat) : String := String.mk (s.data.drop n)

/-- Embedding of the parsing half of GitManager.list_branches: strip
each line of the raw output, drop blank lines, find the lines carrying
the current-branch marker "*", and when one exists put it first with
its two leading marker characters removed, followed by every unmarked
line in original order. -/
def parseBranchLines (rawLines : List String) : List String :=
  let branches := (rawLines.map pyStrip).filter (fun b => b != "")
  let current := branches.filter (fun b => pyStartsWith b "*")
  match current with
  | [] => branches
  | c :: _ => pyDrop c 2 :: branches.filter (fun b => !pyStartsWith b "*")

/-- Embedding of GitManager.list_branches: run the branch-listing
invocation through _run_git_command (check enabled) and parse its
stdout. -/
def list_branches (outcome : ProcOutcome) : Except PyError (List String) :=
  match run_git_command ["branch"] true outcome with
  | .error e => .error e
  | .ok result => .ok (parseBranchLines (pySplitNewline result.stdout))

theorem list_map_self {α : Type} (f : α → α) (l : List α) (h : ∀ x ∈ l, f x = x) :
    l.map f = l := by
  induction l with
  | nil => rfl
  | cons a t ih =>
    simp only [List.map_cons, h a (List.mem_cons_self a t)]
    rw [ih (fun x hx => h x (List.mem_cons_of_mem a hx))]

theorem list_filter_all {α : Type} (p : α → Bool) (l : List α) (h : ∀ x ∈ l, p x = true) :
    l.filter p = l := by
  induction l with
  | nil => rfl
  | cons a t ih =>
    rw [List.filter_cons_of_pos (h a (List.mem_cons_self a t))]
    rw [ih (fun x hx => h x (List.mem_cons_of_mem a hx))]

theorem list_filter_none {α : Type} (p : α → Bool) (l : List α) (h : ∀ x ∈ l, p x = false) :
    l.filter p = [] := by
  induction l with
  | nil => rfl
  | cons a t ih =>
    rw [List.filter_cons_of_neg (by simp [h a (List.mem_cons_self a t)])]
    exact ih (fun x hx => h x (List.mem_cons_of_mem a hx))

/-- C5: the branch parser strips whitespace from every line, moves the
line carrying the leading current-branch marker - marker removed - to
the front, and keeps all remaining branches in the native output
order of the tool: for already-stripped nonblank lines pre, m, post
where only m carries the marker, the result is m with its first two
characters removed followed by pre ++ post unchanged; and on the raw
tool output of "* main" and "  feature" the full list_branches
pipeline returns ["main", "feature"]. -/
theorem list_branches_current_first :
    (∀ (pre post : List String) (m : String),
      (∀ b ∈ pre, pyStrip b = b ∧ b ≠ "" ∧ pyStartsWith b "*" = false) →
      (∀ b ∈ post, pyStrip b = b ∧ b ≠ "" ∧ pyStartsWith b "*" = false) →
      pyStrip m = m → pyStartsWith m "*" = true →
      parseBranchLines (pre ++ m :: post) = pyDrop m 2 :: (pre ++ post)) ∧
    list_branches (.ran 0 "* main\n  feature\n" "") = .ok ["main", "feature"] := by
  constructor
  · intro pre post m hpre hpost hm hstar
    have hmne : m ≠ "" := by
      intro h
      rw [h] at hstar
      simp [pyStartsWith, List.isPrefixOf] at hstar
    have hmap : (pre ++ m :: post).map pyStrip = pre ++ m :: post := by
      apply list_map_self
      intro x hx
      rcases List.mem_append.mp hx with hx | hx
      · exact (hpre x hx).1
      · rcases List.mem_cons.mp hx with hx | hx
        · rw [hx]; exact hm
        · exact (hpost x hx).1
    have hfil : (pre ++ m :: post).filter (fun b => b != "") = pre ++ m :: post := by
      apply list_filter_all
      intro x hx
      rcases List.mem_append.mp hx with hx | hx
      · simp [bne_iff_ne, (hpre x hx).2.1]
      · rcases List.mem_cons.mp hx with hx | hx
        · rw [hx]; simp [bne_iff_ne, hmne]
        · simp [bne_iff_ne, (hpost x hx).2.1]
    have hcur : (pre ++ m :: post).filter (fun b => pyStartsWith b "*") = [m] := by
      rw [List.filter_append]
      rw [list_filter_none _ pre (fun x hx => (hpre x hx).2.2)]
      rw [List.filter_cons]
      rw [if_pos hstar]
      rw [list_filter_none _ post (fun x hx => (hpost x hx).2.2)]
      rfl
    have hrest : (pre ++ m :: post).filter (fun b => !pyStartsWith b "*") = pre ++ post := by
      rw [List.filter_append]
      rw [list_filter_all _ pre (fun x hx => by simp [(hpre x hx).2.2])]
      rw [List.filter_cons]
      rw [if_neg (by simp [hstar])]
      rw [list_filter_all _ post (fun x hx => by simp [(hpost x hx).2.2])]
    simp only [parseBranchLines, hmap, hfil, hcur, hrest]
  · rfl

/-- Witness for C5 at the concrete line shape of the claim: already
stripped lines with the marked line first. -/
theorem list_branches_current_first_witness :
    parseBranchLines ["* main", "feature"] = ["main", "feature"] ∧
    list_branches (.ran 0 "* main\n  feature\n" "") = .ok ["main", "feature"] :=
  ⟨list_branches_current_first.1 [] ["feature"] "* main" (by simp) (by decide)
    (by decide) (by decide), list_branches_current_first.2⟩

/-- Embedding of the dataclass LicenseInfo: display name, template
body with {year} and {name} placeholders, and the requires-name
flag. -/
structure LicenseInfo where
  name : String
  text : String
  requires_name : Bool
deriving DecidableEq

/-- Piece of a parsed format template: a literal chunk or a named
replacement field. -/
inductive TPiece where
  | lit : String → TPiece
  | field : String → TPiece
deriving DecidableEq

/-- Errors of the str.format substitution step: KeyError for a field
name the supplied keyword set does not cover (caught by
generate_license), and a ValueError for malformed brace syntax (not
caught by generate_license).  Exact standard-library message wordings
are abstracted. -/
inductive FormatError where
  | keyError : String → FormatError
  | braceError : String → FormatError
deriving DecidableEq

/-- Scanner for the Python str.format template syntax restricted to
the constructs the templates use: plain named fields {key}, the
escapes of doubled braces, and literal text.  The first argument is
none while scanning literal text and some key while inside a field,
with key holding the reversed field name read so far; the second
argument accumulates the pieces in reverse. -/
def parseTemplateAux : Option (List Char) → List TPiece → List Char → Except FormatError (List TPiece)
  | none, acc, [] => .ok acc.reverse
  | some _, _, [] => .error (.braceError "single brace encountered in format string")
  | some key, acc, '}' :: rest =>
    parseTemplateAux none (.field (String.mk key.reverse) :: acc) rest
  | some key, acc, c :: rest => parseTemplateAux (some (c :: key)) acc rest
  | none, acc, '{' :: '{' :: rest => parseTemplateAux none (.lit "\x7b" :: acc) rest
  | none, acc, '{' :: rest => parseTemplateAux (some []) acc rest
  | none, acc, '}' :: '}' :: rest => parseTemplateAux none (.lit "\x7d" :: acc) rest
  | none, _, '}' :: _ => .error (.braceError "single brace encountered in format string")
  | none, acc, c :: rest => parseTemplateAux none (.lit (String.mk [c]) :: acc) rest

/-- Parses a whole template into pieces. -/
def parseTemplate (t : String) : Except FormatError (List TPiece) :=
  parseTemplateAux none [] t.data

/-- Renders parsed pieces with the keyword set {year, name} of the
generate_license call: a field named year becomes the year string, a
field named name becomes the author string, and any other field name
raises KeyError with that name, exactly as str.format does when handed
an unknown keyword. -/
def renderPieces (y n : String) : List TPiece → Except FormatError String
  | [] => .ok ""
  | .lit s :: rest => (renderPieces y n rest).map (fun r => s ++ r)
  | .field k :: rest =>
    if k = "year" then (renderPieces y n rest).map (fun r => y ++ r)
    else if k = "name" then (renderPieces y n rest).map (fun r => n ++ r)
    else .error (.keyError k)

/-- Embedding of license_info.text.format(year=year, name=author),
the substitution step of generate_license. -/
def pyFormat (template y n : String) : Except FormatError String :=
  (parseTemplate template).bind (renderPieces y n)

/-- Truthiness of the optional author argument as Python evaluates
"not author": none and the empty string are falsy. -/
def pyFalsy : Option String → Bool
  | none => true
  | some s => s == ""

/-- Embedding of LicenseManager.generate_license.  The calendar year
normally read from datetime.now() is passed in as a parameter.  The
identifier is looked up first; then the requires-name flag together
with a falsy author raises the missing-author failure; then the
template is formatted with year and the author (or the empty string
when the author is falsy), translating a KeyError of the substitution
step into LicenseGenerationError while any brace ValueError of the
substitution step would propagate untranslated. -/
def generate_license (licenses : List (String × LicenseInfo)) (license_name : String)
    (author : Option String) (year : Nat) : Except PyError String :=
  match licenses.lookup license_name with
  | none => .error (.invalidLicenseError ("License \x27" ++ license_name ++ "\x27 is not available"))
  | some license_info =>
    if license_info.requires_name && pyFalsy author then
      .error (.licenseGenerationError
        ("License \x27" ++ license_name ++ "\x27 requires an author/organization name"))
    else
      match pyFormat license_info.text (toString year) (if pyFalsy author then "" else author.getD "") with
      | .ok license_text => .ok license_text
      | .error (.keyError k) =>
        .error (.licenseGenerationError ("Failed to format license text: \x27" ++ k ++ "\x27"))
      | .error (.braceError m) => .error (.valueError m)

/-- Embedding of LicenseManager.save_license_file: the filesystem
outcome of writing the LICENSE file is supplied by the environment;
an IOError is translated into LicenseError with the fixed message
prefix. -/
def save_license_file (license_text : String) (ioResult : Except String Unit) :
    Except PyError Unit :=
  match ioResult with
  | .ok _ => .ok ()
  | .error e => .error (.licenseError ("Failed to save LICENSE file: " ++ e))

/-- MIT entry of the built-in default template table of
LicenseManager._load_license_templates. -/
def MIT_license : LicenseInfo :=
  { name := "MIT"
    text := "MIT License\n\nCopyright (c) {year} {name}\n\nPermission is hereby granted, free of charge, to any person obtaining a copy of this software and associated documentation files (the \"Software\"), to deal in the Software without restriction, including without limitation the rights to use, copy, modify, merge, publish, distribute, sublicense, and/or sell copies of the Software, and to permit persons to whom the Software is furnished to do so, subject to the following conditions:\n\nThe above copyright notice and this permission notice shall be included in all copies or substantial portions of the Software.\n\nTHE SOFTWARE IS PROVIDED \"AS IS\", WITHOUT WARRANTY OF ANY KIND, EXPRESS OR IMPLIED, INCLUDING BUT NOT LIMITED TO THE WARRANTIES OF MERCHANTABILITY, FITNESS FOR A PARTICULAR PURPOSE AND NONINFRINGEMENT. IN NO EVENT SHALL THE AUTHORS OR COPYRIGHT HOLDERS BE LIABLE FOR ANY CLAIM, DAMAGES OR OTHER LIABILITY, WHETHER IN AN ACTION OF CONTRACT, TORT OR OTHERWISE, ARISING FROM, OUT OF OR IN CONNECTION WITH THE SOFTWARE OR THE USE OR OTHER DEALINGS IN THE SOFTWARE."
    requires_name := true }

/-- Apache-2.0 entry of the built-in default template table. -/
def Apache_2_0_license : LicenseInfo :=
  { name := "Apache-2.0"
    text := "Apache License 2.0\n\nCopyright (c) {year} {name}\n\nLicensed under the Apache License, Version 2.0 (the \"License\"); you may not use this file except in compliance with the License. You may obtain a copy of the License at:\n\n    http://www.apache.org/licenses/LICENSE-2.0\n\nUnless required by applicable law or agreed to in writing, software distributed under the License is distributed on an \"AS IS\" BASIS, WITHOUT WARRANTIES OR CONDITIONS OF ANY KIND, either express or implied. See the License for the specific language governing permissions and limitations under the License."
    requires_name := true }

/-- BSD-2-Clause entry of the built-in default template table. -/
def BSD_2_Clause_license : LicenseInfo :=
  { name := "BSD-2-Clause"
    text := "BSD 2-Clause License\n\nCopyright (c) {year} {name}\n\nRedistribution and use in source and binary forms, with or without modification, are permitted provided that the following conditions are met:\n\n1. Redistributions of source code must retain the above copyright notice, this list of conditions and the following disclaimer.\n\n2. Redistributions in binary form must reproduce the above copyright notice, this list of conditions and the following disclaimer in the documentation and/or other materials provided with the distribution.\n\nTHIS SOFTWARE IS PROVIDED BY THE COPYRIGHT HOLDERS AND CONTRIBUTORS \"AS IS\" AND ANY EXPRESS OR IMPLIED WARRANTIES, INCLUDING, BUT NOT LIMITED TO, THE IMPLIED WARRANTIES OF MERCHANTABILITY AND FITNESS FOR A PARTICULAR PURPOSE ARE DISCLAIMED. IN NO EVENT SHALL THE COPYRIGHT HOLDER OR CONTRIBUTORS BE LIABLE FOR ANY DIRECT, INDIRECT, INCIDENTAL, SPECIAL, EXEMPLARY, OR CONSEQUENTIAL DAMAGES (INCLUDING, BUT NOT LIMITED TO, PROCUREMENT OF SUBSTITUTE GOODS OR SERVICES; LOSS OF USE, DATA, OR PROFITS; OR BUSINESS INTERRUPTION) HOWEVER CAUSED AND ON ANY THEORY OF LIABILITY, WHETHER IN CONTRACT, STRICT LIABILITY, OR TORT (INCLUDING NEGLIGENCE OR OTHERWISE) ARISING IN ANY WAY OUT OF THE USE OF THIS SOFTWARE, EVEN IF ADVISED OF THE POSSIBILITY OF SUCH DAMAGE."
    requires_name := true }

/-- BSD-3-Clause entry of the built-in default template table. -/
def BSD_3_Clause_license : LicenseInfo :=
  { name := "BSD-3-Clause"
    text := "BSD 3-Clause License\n\nCopyright (c) {year} {name}\n\nRedistribution and use in source and binary forms, with or without modification, are permitted provided that the following conditions are met:\n\n1. Redistributions of source code must retain the above copyright notice, this list of conditions and the following disclaimer.\n\n2. Redistributions in binary form must reproduce the above copyright notice, this list of conditions and the following disclaimer in the documentation and/or other materials provided with the distribution.\n\n3. Neither the name of {name} nor the names of its contributors may be used to endorse or promote products derived from this software without specific prior written permission.\n\nTHIS SOFTWARE IS PROVIDED BY THE COPYRIGHT HOLDERS AND CONTRIBUTORS \"AS IS\" AND ANY EXPRESS OR IMPLIED WARRANTIES, INCLUDING, BUT NOT LIMITED TO, THE IMPLIED WARRANTIES OF MERCHANTABILITY AND FITNESS FOR A PARTICULAR PURPOSE ARE DISCLAIMED. IN NO EVENT SHALL THE COPYRIGHT HOLDER OR CONTRIBUTORS BE LIABLE FOR ANY DIRECT, INDIRECT, INCIDENTAL, SPECIAL, EXEMPLARY, OR CONSEQUENTIAL DAMAGES (INCLUDING, BUT NOT LIMITED TO, PROCUREMENT OF SUBSTITUTE GOODS OR SERVICES; LOSS OF USE, DATA, OR PROFITS; OR BUSINESS INTERRUPTION) HOWEVER CAUSED AND ON ANY THEORY OF LIABILITY, WHETHER IN CONTRACT, STRICT LIABILITY, OR TORT (INCLUDING NEGLIGENCE OR OTHERWISE) ARISING IN ANY WAY OUT OF THE USE OF THIS SOFTWARE, EVEN IF ADVISED OF THE POSSIBILITY OF SUCH DAMAGE."
    requires_name := true }

/-- Apache-1.1 entry of the built-in default template table. -/
def Apache_1_1_license : LicenseInfo :=
  { name := "Apache-1.1"
    text := "Apache License 1.1\n\nCopyright (c) {year} {name}\n\nThis product includes software developed by The Apache Group (http://www.apache.org/).\n\nRedistribution and use in source and binary forms, with or without modification, are permitted provided that the following conditions are met:\n\n1. Redistributions of source code must retain the above copyright notice, this list of conditions and the following disclaimer.\n\n2. Redistributions in binary form must reproduce the above copyright notice, this list of conditions and the following disclaimer in the documentation and/or other materials provided with the distribution.\n\n3. The end-user documentation included with the redistribution, if any, must include the following acknowledgment: \"This product includes software developed by the Apache Group (http://www.apache.org/).\"\n\n4. The names \"Apache Server\" and \"Apache Group\" must not be used to endorse or promote products derived from this software without prior written permission.\n\nTHIS SOFTWARE IS PROVIDED \"AS IS\" AND ANY EXPRESSED OR IMPLIED WARRANTIES, INCLUDING, BUT NOT LIMITED TO, THE IMPLIED WARRANTIES OF MERCHANTABILITY AND FITNESS FOR A PARTICULAR PURPOSE ARE DISCLAIMED. IN NO EVENT SHALL THE APACHE GROUP OR ITS CONTRIBUTORS BE LIABLE FOR ANY DIRECT, INDIRECT, INCIDENTAL, SPECIAL, EXEMPLARY, OR CONSEQUENTIAL DAMAGES (INCLUDING, BUT NOT LIMITED TO, PROCUREMENT OF SUBSTITUTE GOODS OR SERVICES; LOSS OF USE, DATA, OR PROFITS; OR BUSINESS INTERRUPTION) HOWEVER CAUSED AND ON ANY THEORY OF LIABILITY, WHETHER IN CONTRACT, STRICT LIABILITY, OR TORT (INCLUDING NEGLIGENCE OR OTHERWISE) ARISING IN ANY WAY OUT OF THE USE OF THIS SOFTWARE, EVEN IF ADVISED OF THE POSSIBILITY OF SUCH DAMAGE."
    requires_name := true }

/-- BSD-4-Clause entry of the built-in default template table. -/
def BSD_4_Clause_license : LicenseInfo :=
  { name := "BSD-4-Clause"
    text := "BSD 4-Clause License\n\nCopyright (c) {year} {name}\n\nRedistribution and use in source and binary forms, with or without modification, are permitted provided that the following conditions are met:\n\n1. Redistributions of source code must retain the above copyright notice, this list of conditions and the following disclaimer.\n\n2. Redistributions in binary form must reproduce the above copyright notice, this list of conditions and the following disclaimer in the documentation and/or other materials provided with the distribution.\n\n3. All advertising materials mentioning features or use of this software must display the following acknowledgment: This product includes software developed by {name}.\n\n4. Neither the name of {name} nor the names of its contributors may be used to endorse or promote products derived from this software without specific prior written permission.\n\nTHIS SOFTWARE IS PROVIDED BY THE COPYRIGHT HOLDERS AND CONTRIBUTORS \"AS IS\" AND ANY EXPRESS OR IMPLIED WARRANTIES, INCLUDING, BUT NOT LIMITED TO, THE IMPLIED WARRANTIES OF MERCHANTABILITY AND FITNESS FOR A PARTICULAR PURPOSE ARE DISCLAIMED. IN NO EVENT SHALL THE COPYRIGHT HOLDER OR CONTRIBUTORS BE LIABLE FOR ANY DIRECT, INDIRECT, INCIDENTAL, SPECIAL, EXEMPLARY, OR CONSEQUENTIAL DAMAGES (INCLUDING, BUT NOT LIMITED TO, PROCUREMENT OF SUBSTITUTE GOODS OR SERVICES; LOSS OF USE, DATA, OR PROFITS; OR BUSINESS INTERRUPTION) HOWEVER CAUSED AND ON ANY THEORY OF LIABILITY, WHETHER IN CONTRACT, STRICT LIABILITY, OR TORT (INCLUDING NEGLIGENCE OR OTHERWISE) ARISING IN ANY WAY OUT OF THE USE OF THIS SOFTWARE, EVEN IF ADVISED OF THE POSSIBILITY OF SUCH DAMAGE."
    requires_name := true }

/-- Embedding of the default_licenses table of
LicenseManager._load_license_templates, in source order, used when no
licenses.json file is present (the loading fallback itself is out of
scope per the spec). -/
def default_licenses : List (String × LicenseInfo) :=
  [("MIT", MIT_license),
   ("Apache-2.0", Apache_2_0_license),
   ("BSD-2-Clause", BSD_2_Clause_license),
   ("BSD-3-Clause", BSD_3_Clause_license),
   ("Apache-1.1", Apache_1_1_license),
   ("BSD-4-Clause", BSD_4_Clause_license)]

/-- Identifiers of the built-in default template set, in source
order. -/
def builtin_license_ids : List String :=
  ["MIT", "Apache-2.0", "BSD-2-Clause", "BSD-3-Clause", "Apache-1.1", "BSD-4-Clause"]

/-- Recognized pieces are literals and the two fields of the keyword
set of the generate_license substitution. -/
def recognizedPiece : TPiece → Bool
  | .lit _ => true
  | .field k => k == "year" || k == "name"

/-- Decidable well-formedness of a template body with respect to the
substitution step of generate_license: it parses, every field is one
of year and name, and both year and name occur. -/
def goodTemplate (t : String) : Bool :=
  match parseTemplate t with
  | .error _ => false
  | .ok ps =>
    ps.all recognizedPiece &&
      ps.any (fun p => p == .field "year") && ps.any (fun p => p == .field "name")

theorem renderPieces_total (y n : String) (ps : List TPiece)
    (hall : ps.all recognizedPiece = true) :
    ∃ out, renderPieces y n ps = .ok out ∧
      (TPiece.field "year" ∈ ps → strContains out y) ∧
      (TPiece.field "name" ∈ ps → strContains out n) := by
  induction ps with
  | nil =>
    refine ⟨"", rfl, ?_, ?_⟩ <;> intro h <;> simp at h
  | cons p rest ih =>
    rw [List.all_cons] at hall
    obtain ⟨hp, hrest⟩ := Bool.and_eq_true_iff.mp hall
    obtain ⟨out, hout, hy, hn⟩ := ih hrest
    cases p with
    | lit s =>
      refine ⟨s ++ out, by simp [renderPieces, hout, Except.map], ?_, ?_⟩
      · intro h
        rcases List.mem_cons.mp h with h | h
        · simp at h
        · exact strContains_append_left _ _ _ (hy h)
      · intro h
        rcases List.mem_cons.mp h with h | h
        · simp at h
        · exact strContains_append_left _ _ _ (hn h)
    | field k =>
      simp only [recognizedPiece] at hp
      rcases Bool.or_eq_true_iff.mp hp with hk | hk
      · have hk : k = "year" := by simpa using hk
        subst hk
        refine ⟨y ++ out, by simp [renderPieces, hout, Except.map], fun _ => strContains_pre y out, ?_⟩
        intro h
        rcases List.mem_cons.mp h with h | h
        · simp at h
        · exact strContains_append_left _ _ _ (hn h)
      · have hk : k = "name" := by simpa using hk
        subst hk
        refine ⟨n ++ out, by simp [renderPieces, hout, Except.map], ?_, fun _ => strContains_pre n out⟩
        intro h
        rcases List.mem_cons.mp h with h | h
        · simp at h
        · exact strContains_append_left _ _ _ (hy h)

theorem renderPieces_unknown (y n : String) (ps : List TPiece) (k : String)
    (hmem : TPiece.field k ∈ ps) (hky : k ≠ "year") (hkn : k ≠ "name") :
    ∃ k2, k2 ≠ "year" ∧ k2 ≠ "name" ∧ renderPieces y n ps = .error (.keyError k2) := by
  induction ps with
  | nil => simp at hmem
  | cons p rest ih =>
    cases p with
    | lit s =>
      have hmem2 : TPiece.field k ∈ rest := by
        rcases List.mem_cons.mp hmem with h | h
        · simp at h
        · exact h
      obtain ⟨k2, h1, h2, h3⟩ := ih hmem2
      exact ⟨k2, h1, h2, by simp [renderPieces, h3, Except.map]⟩
    | field j =>
      by_cases hj : j = "year"
      · subst hj
        have hmem2 : TPiece.field k ∈ rest := by
          rcases List.mem_cons.mp hmem with h | h
          · exact absurd (by simpa using h) hky
          · exact h
        obtain ⟨k2, h1, h2, h3⟩ := ih hmem2
        exact ⟨k2, h1, h2, by simp [renderPieces, h3, Except.map]⟩
      · by_cases hj2 : j = "name"
        · subst hj2
          have hmem2 : TPiece.field k ∈ rest := by
            rcases List.mem_cons.mp hmem with h | h
            · exact absurd (by simpa using h) hkn
            · exact h
          obtain ⟨k2, h1, h2, h3⟩ := ih hmem2
          exact ⟨k2, h1, h2, by simp [renderPieces, hj, h3, Except.map]⟩
        · exact ⟨j, hj, hj2, by simp [renderPieces, hj, hj2]⟩

theorem goodTemplate_spec (t : String) (h : goodTemplate t = true) :
    ∃ ps, parseTemplate t = .ok ps ∧ ps.all recognizedPiece = true ∧
      TPiece.field "year" ∈ ps ∧ TPiece.field "name" ∈ ps := by
  unfold goodTemplate at h
  revert h
  match hp : parseTemplate t with
  | .error e => intro h; simp at h
  | .ok ps =>
    intro h
    rw [Bool.and_eq_true_iff, Bool.and_eq_true_iff] at h
    obtain ⟨⟨hall, hyear⟩, hname⟩ := h
    refine ⟨ps, rfl, hall, ?_, ?_⟩
    · obtain ⟨x, hx, hxe⟩ := List.any_eq_true.mp hyear
      rwa [show x = TPiece.field "year" from by simpa using hxe] at hx
    · obtain ⟨x, hx, hxe⟩ := List.any_eq_true.mp hname
      rwa [show x = TPiece.field "name" from by simpa using hxe] at hx

/-- For a stored template whose body is well formed for the closed
keyword set, generate_license succeeds and its output contains both
the year string and the substituted author string. -/
theorem generate_license_ok_contains (licenses : List (String × LicenseInfo))
    (license_name : String) (author : Option String) (year : Nat) (info : LicenseInfo)
    (hlk : licenses.lookup license_name = some info)
    (hreq : (info.requires_name && pyFalsy author) = false)
    (hgood : goodTemplate info.text = true) :
    ∃ text, generate_license licenses license_name author year = .ok text ∧
      strContains text (toString year) ∧
      strContains text (if pyFalsy author then "" else author.getD "") := by
  obtain ⟨ps, hp, hall, hyy, hnn⟩ := goodTemplate_spec info.text hgood
  obtain ⟨out, hout, hy, hn⟩ :=
    renderPieces_total (toString year) (if pyFalsy author then "" else author.getD "") ps hall
  refine ⟨out, ?_, hy hyy, hn hnn⟩
  simp only [generate_license, hlk, hreq, Bool.false_eq_true, if_false, pyFormat, hp,
    Except.bind, hout]

theorem builtin_license_case (id : String) (info : LicenseInfo) (year : Nat)
    (hlk : default_licenses.lookup id = some info)
    (hreq : info.requires_name = true)
    (hgood : goodTemplate info.text = true) :
    (∃ text, generate_license default_licenses id (some "Acme Corp") year = .ok text ∧
      strContains text "Acme Corp" ∧ strContains text (toString year)) ∧
    (∃ msg, generate_license default_licenses id (some "") year =
      .error (.licenseGenerationError msg)) ∧
    (∀ info2, default_licenses.lookup id = some info2 → info2.requires_name = true) := by
  refine ⟨?_, ?_, ?_⟩
  · obtain ⟨t, h1, h2, h3⟩ := generate_license_ok_contains default_licenses id
      (some "Acme Corp") year info hlk (by rw [hreq]; decide) hgood
    exact ⟨t, h1, h3, h2⟩
  · refine ⟨"License \x27" ++ id ++ "\x27 requires an author/organization name", ?_⟩
    simp only [generate_license, hlk]
    rw [if_pos (by rw [hreq]; decide)]
  · intro info2 h2
    rw [hlk] at h2
    cases h2
    exact hreq

/-- C6: for every identifier of the built-in default template set,
generating with author "Acme Corp" succeeds and the returned text
contains the literal author string and the year string, for every
calendar year; generating with the empty author fails with the
missing-author failure (LicenseGenerationError); and every entry of
the built-in table carries requires_name = true. -/
theorem generate_license_builtins_acme (year : Nat) (id : String)
    (hid : id ∈ builtin_license_ids) :
    (∃ text, generate_license default_licenses id (some "Acme Corp") year = .ok text ∧
      strContains text "Acme Corp" ∧ strContains text (toString year)) ∧
    (∃ msg, generate_license default_licenses id (some "") year =
      .error (.licenseGenerationError msg)) ∧
    (∀ info, default_licenses.lookup id = some info → info.requires_name = true) := by
  simp only [builtin_license_ids, List.mem_cons, List.not_mem_nil, or_false] at hid
  rcases hid with rfl | rfl | rfl | rfl | rfl | rfl
  · exact builtin_license_case _ MIT_license year rfl rfl (by decide)
  · exact builtin_license_case _ Apache_2_0_license year rfl rfl (by decide)
  · exact builtin_license_case _ BSD_2_Clause_license year rfl rfl (by decide)
  · exact builtin_license_case _ BSD_3_Clause_license year rfl rfl (by decide)
  · exact builtin_license_case _ Apache_1_1_license year rfl rfl (by decide)
  · exact builtin_license_case _ BSD_4_Clause_license year rfl rfl (by decide)

/-- Witness for C6 at the concrete year 2026 and the identifier MIT. -/
theorem generate_license_builtins_acme_witness :
    (∃ text, generate_license default_licenses "MIT" (some "Acme Corp") 2026 = .ok text ∧
      strContains text "Acme Corp" ∧ strContains text (toString 2026)) ∧
    (∃ msg, generate_license default_licenses "MIT" (some "") 2026 =
      .error (.licenseGenerationError msg)) ∧
    (∀ info, default_licenses.lookup "MIT" = some info → info.requires_name = true) :=
  generate_license_builtins_acme 2026 "MIT" (by decide)

/-- C7: for every store, author and year, generate_license applied to
an identifier absent from the store fails with the UnknownLicense
failure (InvalidLicenseError); the author value - including a falsy
one that would otherwise trigger the missing-author failure - is
never consulted, since the identifier check comes first. -/
theorem generate_license_unknown_identifier (licenses : List (String × LicenseInfo))
    (license_name : String) (author : Option String) (year : Nat)
    (h : licenses.lookup license_name = none) :
    generate_license licenses license_name author year =
      .error (.invalidLicenseError ("License \x27" ++ license_name ++ "\x27 is not available")) := by
  simp only [generate_license, h]

/-- Witness for C7: the identifier NotARealLicense with an empty
author, which would fail the author check of every built-in template
were the identifier check not first. -/
theorem generate_license_unknown_identifier_witness :
    generate_license default_licenses "NotARealLicense" (some "") 2026 =
      .error (.invalidLicenseError "License \x27NotARealLicense\x27 is not available") :=
  generate_license_unknown_identifier default_licenses "NotARealLicense" (some "") 2026 rfl

/-- C8: when the matched template parses but references a field name
the substitution step does not recognize (neither year nor name),
generate_license fails with the TemplateMalformed failure
(LicenseGenerationError wrapping the KeyError), rather than returning
text or escaping with an untranslated error. -/
theorem generate_license_unrecognized_placeholder (licenses : List (String × LicenseInfo))
    (license_name : String) (author : Option String) (year : Nat) (info : LicenseInfo)
    (ps : List TPiece) (k : String)
    (hlk : licenses.lookup license_name = some info)
    (hreq : (info.requires_name && pyFalsy author) = false)
    (hp : parseTemplate info.text = .ok ps)
    (hmem : TPiece.field k ∈ ps) (hky : k ≠ "year") (hkn : k ≠ "name") :
    ∃ k2, k2 ≠ "year" ∧ k2 ≠ "name" ∧
      generate_license licenses license_name author year =
        .error (.licenseGenerationError ("Failed to format license text: \x27" ++ k2 ++ "\x27")) := by
  obtain ⟨k2, h1, h2, h3⟩ := renderPieces_unknown (toString year)
    (if pyFalsy author then "" else author.getD "") ps k hmem hky hkn
  refine ⟨k2, h1, h2, ?_⟩
  simp only [generate_license, hlk, hreq, Bool.false_eq_true, if_false, pyFormat, hp,
    Except.bind, h3]

/-- Store with a single malformed template, referencing the
unrecognized placeholder foo. -/
def custom_store : List (String × LicenseInfo) :=
  [("CUSTOM", { name := "CUSTOM", text := "Hello {foo}", requires_name := false })]

/-- Parsed pieces of the malformed template of custom_store. -/
def custom_pieces : List TPiece :=
  [.lit "H", .lit "e", .lit "l", .lit "l", .lit "o", .lit " ", .field "foo"]

/-- Witness for C8 on the concrete malformed template. -/
theorem generate_license_unrecognized_placeholder_witness :
    ∃ k2, k2 ≠ "year" ∧ k2 ≠ "name" ∧
      generate_license custom_store "CUSTOM" none 2026 =
        .error (.licenseGenerationError ("Failed to format license text: \x27" ++ k2 ++ "\x27")) :=
  generate_license_unrecognized_placeholder custom_store "CUSTOM" none 2026
    { name := "CUSTOM", text := "Hello {foo}", requires_name := false } custom_pieces "foo"
    rfl (by decide) rfl (by decide) (by decide) (by decide)

/-- Steps of the composed use case of
RepoManagerApp.generate_and_add_license, in the order the code
attempts them. -/
inductive AppStep where
  | generateStep
  | persistStep
  | stageStep
deriving DecidableEq

/-- Embedding of RepoManagerApp.generate_and_add_license.  Besides the
Except result it returns the list of steps the code actually started,
so the fail-fast behaviour is visible: the guard on uninitialized
managers, then generate, then persist (save_license_file with the
environment-supplied filesystem outcome), then staging via
add_files(["LICENSE"]). -/
def generate_and_add_license (store : List (String × LicenseInfo)) (license_name : String)
    (author : Option String) (year : Nat) (managersInit : Bool)
    (ioResult : Except String Unit) (resolve : String → PathResolution)
    (gitOutcome : ProcOutcome) : List AppStep × Except PyError Unit :=
  if managersInit then
    match generate_license store license_name author year with
    | .error e => ([.generateStep], .error e)
    | .ok license_text =>
      match save_license_file license_text ioResult with
      | .error e => ([.generateStep, .persistStep], .error e)
      | .ok _ =>
        ([.generateStep, .persistStep, .stageStep], (add_files resolve ["LICENSE"] gitOutcome).2)
  else
    ([], .error (.repoManagerError "Managers not initialized"))

/-- C9: the composed use case runs generate, persist and stage
strictly in this order and fails fast: when generation fails with e,
the result is exactly that failure with only the generate step
attempted - persist and stage never start; when generation succeeds
but persistence fails, the result is the translated WriteFailed
failure with exactly generate and persist attempted - the staging
step (AddFiles(["LICENSE"])) never starts. -/
theorem generate_and_add_license_fail_fast (store : List (String × LicenseInfo))
    (license_name : String) (author : Option String) (year : Nat)
    (ioResult : Except String Unit) (resolve : String → PathResolution)
    (gitOutcome : ProcOutcome) :
    (∀ e, generate_license store license_name author year = .error e →
      generate_and_add_license store license_name author year true ioResult resolve gitOutcome =
        ([.generateStep], .error e) ∧
      AppStep.persistStep ∉
        (generate_and_add_license store license_name author year true ioResult resolve
          gitOutcome).1 ∧
      AppStep.stageStep ∉
        (generate_and_add_license store license_name author year true ioResult resolve
          gitOutcome).1) ∧
    (∀ text m, generate_license store license_name author year = .ok text →
      ioResult = .error m →
      generate_and_add_license store license_name author year true ioResult resolve gitOutcome =
        ([.generateStep, .persistStep],
          .error (.licenseError ("Failed to save LICENSE file: " ++ m))) ∧
      AppStep.stageStep ∉
        (generate_and_add_license store license_name author year true ioResult resolve
          gitOutcome).1) := by
  constructor
  · intro e he
    have hg : generate_and_add_license store license_name author year true ioResult resolve
        gitOutcome = ([.generateStep], .error e) := by
      simp [generate_and_add_license, he]
    refine ⟨hg, ?_, ?_⟩ <;> rw [hg] <;> simp
  · intro text m hok him
    subst him
    have hg : generate_and_add_license store license_name author year true (.error m) resolve
        gitOutcome = ([.generateStep, .persistStep],
          .error (.licenseError ("Failed to save LICENSE file: " ++ m))) := by
      simp [generate_and_add_license, hok, save_license_file]
    refine ⟨hg, ?_⟩
    rw [hg]
    simp

/-- Store with a single tiny template, used to exercise the composed
use case concretely. -/
def tiny_store : List (String × LicenseInfo) :=
  [("T", { name := "T", text := "Hi {name}", requires_name := true })]

/-- Witness for C9 at a concrete run whose generation succeeds and
whose persistence fails with a permission error: staging is never
attempted. -/
theorem generate_and_add_license_fail_fast_witness :
    generate_and_add_license tiny_store "T" (some "A") 2026 true (.error "Permission denied")
        resolveCE (.ran 0 "" "") =
      ([.generateStep, .persistStep],
        .error (.licenseError ("Failed to save LICENSE file: " ++ "Permission denied"))) ∧
    AppStep.stageStep ∉
      (generate_and_add_license tiny_store "T" (some "A") 2026 true (.error "Permission denied")
        resolveCE (.ran 0 "" "")).1 :=
  (generate_and_add_license_fail_fast tiny_store "T" (some "A") 2026 (.error "Permission denied")
    resolveCE (.ran 0 "" "")).2 "Hi A" "Permission denied" rfl rfl
